import Mathlib

/-!
Verification development for the single-model LLM inference gateway
(FastAPI service around a llama-cpp engine) and its CLI chat client.

The definitions below are a shallow embedding of the Python sources:
  - `src/app/api/v1/endpoints.py`  (health check, chat-completion handler)
  - `src/app/core/dependencies.py` (engine / lock dependency resolution)
  - `src/app/main.py`              (lifespan startup / shutdown)
  - `src/app/client_chat.py`       (CLI chat client history bookkeeping)

Machine-level effects (time, logging, the actual llama-cpp call) are
modelled as explicit inputs: the engine's behaviour for a given call is an
`EngineBehavior` value, the environment (model path, file existence, clock)
is an `Env` record, and gate activity is reported as an explicit event list.
-/

namespace LlmService

/-! ## Wire schemas (`core.schemas`, as pinned by `src/tests/unit/test_schema.py`)

Modelled from the spec: the `core/schemas.py` module itself is not among the
source files; its shape is taken from spec §6 and from the unit tests, which
show `messages` is a plain list (emptiness is rejected in the handler, with
status 400, not by schema validation). -/

/-- One chat message on the wire: role and content. -/
structure ChatMessage where
  role : String
  content : String
deriving DecidableEq, Repr

/-- Request body of the completion endpoint (`ChatCompletionRequest`). -/
structure ChatCompletionRequest where
  messages : List ChatMessage
  temperature : Rat
  max_tokens : Nat
  top_p : Rat
  stop : Option (List String)
deriving DecidableEq, Repr

/-- Output message of one completion choice (`ChatMessageOutput`). -/
structure ChatMessageOutput where
  role : String
  content : String
deriving DecidableEq, Repr

/-- One completion choice of the response (`ChatCompletionChoice`). -/
structure ChatCompletionChoice where
  index : Nat
  message : ChatMessageOutput
  finish_reason : String
deriving DecidableEq, Repr

/-- Response body of the completion endpoint (`ChatCompletionResponse`). -/
structure ChatCompletionResponse where
  id : String
  created : Nat
  model : String
  choices : List ChatCompletionChoice
deriving DecidableEq, Repr

/-! ## Engine output model

`llm.create_chat_completion` returns a duck-typed dict; the handler reads
`choices[0]`, then `message`, then `.get` with defaults.  Missing keys are
`none`; a non-dict result and a raised exception are separate behaviours. -/

/-- The engine's `message` dict: both keys may be missing. -/
structure LlmMessageDict where
  role : Option String
  content : Option String
deriving DecidableEq, Repr

/-- One element of the engine's `choices` list. -/
structure LlmChoiceDict where
  message : Option LlmMessageDict
  finish_reason : Option String
deriving DecidableEq, Repr

/-- The engine's completion dict; `choices`, `id`, `created` may be missing. -/
structure LlmCompletionDict where
  choices : Option (List LlmChoiceDict)
  id : Option String
  created : Option Nat
deriving DecidableEq, Repr

/-- What the blocking `create_chat_completion` call does on one invocation:
returns a dict, returns a non-dict value, or raises an exception. -/
inductive EngineBehavior
  | returns (d : LlmCompletionDict)
  | returnsNonDict
  | raises
deriving DecidableEq, Repr

/-- Process environment read by the handlers: `MODEL_PATH`, whether
`os.path.exists(MODEL_PATH)` holds, and the current clock reading. -/
structure Env where
  modelPath : String
  modelPathExists : Bool
  now : Nat
deriving DecidableEq, Repr

/-- `os.path.basename` for slash-separated paths. -/
def basename (p : String) : String :=
  (p.splitOn "/").getLastD ""

/-! ## Application state (`app.state`) -/

/-- `app.state`: the optional engine (`llm`) and the optional asyncio lock
(`llm_lock`); when the lock exists, `true` means it is currently held. -/
structure AppState where
  llm : Option EngineBehavior
  llm_lock : Option Bool
deriving DecidableEq, Repr

/-! ## Dependency resolution (`core/dependencies.py`)

FastAPI resolves the `LLMDependency` and `LLMLockDependency` parameters of
the endpoint before the endpoint body runs; an `HTTPException` raised by a
dependency is returned immediately and the body is never entered. -/

/-- `get_llm_instance`: return the engine from `app.state.llm`, or raise
HTTP 503 when it is missing or `None`. -/
def get_llm_instance (st : AppState) : Except (Nat × String) EngineBehavior :=
  match st.llm with
  | none => .error (503, "LLM model is not loaded or unavailable. Check /health endpoint.")
  | some llm => .ok llm

/-- `get_llm_lock`: return the lock from `app.state.llm_lock`, or raise
HTTP 503 when it is missing or `None`. -/
def get_llm_lock (st : AppState) : Except (Nat × String) Bool :=
  match st.llm_lock with
  | none => .error (503, "LLM lock is unavailable. Service may be initializing or LLM failed to load.")
  | some l => .ok l

/-! ## Chat-completion handler (`endpoints.py`, `create_chat_completion`) -/

/-- Gate (asyncio lock) activity of one request, in order. -/
inductive GateEvent
  | acquire
  | release
deriving DecidableEq, Repr

/-- What the handler produces: a response object, a raised `HTTPException`
(status and detail), or no response at all — the final `except Exception`
branch of the handler logs and falls through without raising or returning,
so on that path the endpoint function returns `None`. -/
inductive HandlerOutcome
  | response (r : ChatCompletionResponse)
  | httpError (status : Nat) (detail : String)
  | noResponse
deriving DecidableEq, Repr

/-- Status code of the outcome when it is an `HTTPException`. -/
def HandlerOutcome.statusCode : HandlerOutcome → Option Nat
  | .httpError s _ => some s
  | _ => none

/-- `model_name_display` computation of the completion handler:
`MODEL_PATH` basename when the path is set and exists, else the
`"unknown_model"` sentinel. -/
def model_name_display (env : Env) : String :=
  if env.modelPath ≠ "" ∧ env.modelPathExists = true then basename env.modelPath
  else "unknown_model"

/-- Successful mapping of the engine dict into the response contract:
first choice's role (default `"assistant"`), content (default `""`),
finish reason (default `"stop"`); `id` and `created` from the engine dict
when present, else synthesized from the clock. -/
def buildResponse (env : Env) (d : LlmCompletionDict) (c : LlmChoiceDict)
    (m : LlmMessageDict) : ChatCompletionResponse :=
  { id := d.id.getD ("chatcmpl-" ++ toString env.now)
    created := d.created.getD env.now
    model := model_name_display env
    choices := [{ index := 0
                  message := { role := m.role.getD "assistant"
                               content := m.content.getD "" }
                  finish_reason := c.finish_reason.getD "stop" }] }

/-- Body of `create_chat_completion` (after dependency resolution): the
empty-messages check, then `async with llm_lock` around the offloaded
engine call and result mapping.  Every path that enters the `async with`
block records `acquire` and, on exit (return, raise, or fall-through),
`release`.  A `KeyError`/`IndexError` from `choices[0]` or `["message"]`
and a raised engine exception are caught by the final `except Exception`,
which logs and produces no response. -/
def create_chat_completion (env : Env) (req : ChatCompletionRequest)
    (engine : EngineBehavior) : HandlerOutcome × List GateEvent :=
  if req.messages = [] then
    (.httpError 400 "Messages list cannot be empty.", [])
  else
    match engine with
    | .raises => (.noResponse, [.acquire, .release])
    | .returnsNonDict =>
        (.httpError 500 "Invalid response structure from LLM.", [.acquire, .release])
    | .returns d =>
      match d.choices with
      | none => (.noResponse, [.acquire, .release])
      | some [] => (.noResponse, [.acquire, .release])
      | some (c :: _) =>
        match c.message with
        | none => (.noResponse, [.acquire, .release])
        | some m => (.response (buildResponse env d c m), [.acquire, .release])

/-- Full endpoint pipeline for one request: FastAPI resolves the
`llm` and `llm_lock` dependencies first (each may answer 503), and only
then runs the handler body. -/
def handle_request (st : AppState) (env : Env) (req : ChatCompletionRequest) :
    HandlerOutcome × List GateEvent :=
  match get_llm_instance st with
  | .error (s, d) => (.httpError s d, [])
  | .ok llm =>
    match get_llm_lock st with
    | .error (s, d) => (.httpError s d, [])
    | .ok _ => create_chat_completion env req llm

/-! ## Health endpoint (`endpoints.py`, `health_check_status`) -/

/-- Result dict of the health endpoint; keys absent from a branch are
`none`. -/
structure HealthResult where
  status : String
  model_loaded : Bool
  model_name : Option String
  message : Option String
  configured_model_path : Option String
deriving DecidableEq, Repr

/-- The `model_name_display` computation of the health endpoint:
`"N/A"` by default, the basename when the engine is loaded and the path
exists, the basename tagged `" (file not found)"` when the path is set but
missing. -/
def health_model_name_display (llmAvailable : Bool) (env : Env) : String :=
  if llmAvailable = true ∧ env.modelPath ≠ "" ∧ env.modelPathExists = true then
    basename env.modelPath
  else if env.modelPath ≠ "" ∧ env.modelPathExists = false then
    basename env.modelPath ++ " (file not found)"
  else "N/A"

/-- `health_check_status`: reads only `app.state.llm` presence (never the
lock) and returns the ok / warning dict of the corresponding branch. -/
def health_check_status (st : AppState) (env : Env) : HealthResult :=
  let llm_instance_available := st.llm.isSome
  if llm_instance_available then
    { status := "ok"
      model_loaded := true
      model_name := some (health_model_name_display llm_instance_available env)
      message := none
      configured_model_path := none }
  else
    { status := "warning"
      model_loaded := false
      model_name := none
      message := some "LLM not loaded or failed to load. Check server logs."
      configured_model_path := some env.modelPath }

/-! ## Lifecycle (`main.py`, `lifespan`) -/

/-- Startup half of `lifespan`: when the model file exists, attempt the
load (`loadResult` is `some engine` on success, `none` when the `Llama`
constructor raises); otherwise skip it.  `app.state.llm` gets the instance
or `None`; `app.state.llm_lock` gets a fresh unlocked lock exactly when the
instance loaded, else `None`.  No path crashes the process. -/
def lifespan_startup (fileExists : Bool) (loadResult : Option EngineBehavior) :
    AppState :=
  let llm_instance : Option EngineBehavior :=
    if fileExists then loadResult else none
  { llm := llm_instance
    llm_lock := if llm_instance.isSome then some false else none }

/-- Shutdown half of `lifespan`: when `app.state.llm` is present it is
deleted; nothing else is touched — in particular `app.state.llm_lock` is
left as it was. -/
def lifespan_shutdown (st : AppState) : AppState :=
  if st.llm.isSome then { st with llm := none } else st

/-! ## CLI chat client (`client_chat.py`, `LLMChatClient`) -/

/-- The `message` dict of a parsed gateway response choice;
`content` may be missing (the client reads only `content`). -/
structure ClientRespMessage where
  role : Option String
  content : Option String
deriving DecidableEq, Repr

/-- One element of the parsed `choices` list. -/
structure ClientRespChoice where
  message : Option ClientRespMessage
deriving DecidableEq, Repr

/-- Parsed JSON body of a gateway response; `choices` may be missing. -/
structure ClientRespBody where
  choices : Option (List ClientRespChoice)
deriving DecidableEq, Repr

/-- Body of an HTTP response as seen by `response.json()`: either the
parse raises, or it yields a structured body. -/
inductive ClientBodyOutcome
  | invalidJson
  | json (b : ClientRespBody)
deriving DecidableEq, Repr

/-- What `requests.post` does on one call: raise (connection error,
timeout, ...) or return a response with a status code and a body. -/
inductive PostOutcome
  | postRaises
  | response (status : Nat) (body : ClientBodyOutcome)
deriving DecidableEq, Repr

/-- Result of one `get_llm_response` call: the returned string, the
conversation history afterwards, and whether `requests.post` was invoked. -/
structure ClientCallResult where
  reply : String
  history : List ChatMessage
  requestSent : Bool
deriving DecidableEq, Repr

/-- Role of the last history entry, when the history is nonempty. -/
def lastRole (hist : List ChatMessage) : Option String :=
  hist.getLast?.map ChatMessage.role

/-- `_revert_last_user_message`: pop the last entry when the history is
nonempty and ends with a user message. -/
def revert_last_user_message (hist : List ChatMessage) : List ChatMessage :=
  if hist ≠ [] ∧ lastRole hist = some "user" then hist.dropLast else hist

/-- `get_llm_response`, as a function of the current history and of the
transport's behaviour for this call.  The guard returns an error string
without posting; `raise_for_status` raises for statuses in `[400, 600)`;
`KeyError`/`IndexError`/`TypeError` while drilling into the body map to the
invalid-response error; any other exception (connection failure, HTTP
status error, JSON decode error) maps to the unexpected-problem error; both
error paths revert the pending user turn.  On success the content is
appended as an assistant message and returned. -/
def get_llm_response (hist : List ChatMessage) (outcome : PostOutcome) :
    ClientCallResult :=
  if hist.isEmpty ∨ lastRole hist ≠ some "user" then
    ⟨"Error: Internal client error - no user message to respond to.", hist, false⟩
  else
    match outcome with
    | .postRaises =>
        ⟨"Error: An unexpected problem occurred.", revert_last_user_message hist, true⟩
    | .response status body =>
      if 400 ≤ status ∧ status < 600 then
        ⟨"Error: An unexpected problem occurred.", revert_last_user_message hist, true⟩
      else
        match body with
        | .invalidJson =>
            ⟨"Error: An unexpected problem occurred.", revert_last_user_message hist, true⟩
        | .json b =>
          match b.choices with
          | none =>
              ⟨"Error: Received an invalid response from the AI.", revert_last_user_message hist, true⟩
          | some [] =>
              ⟨"Error: Received an invalid response from the AI.", revert_last_user_message hist, true⟩
          | some (c :: _) =>
            match c.message with
            | none =>
                ⟨"Error: Received an invalid response from the AI.", revert_last_user_message hist, true⟩
            | some m =>
              match m.content with
              | none =>
                  ⟨"Error: Received an invalid response from the AI.", revert_last_user_message hist, true⟩
              | some content =>
                  ⟨content, hist ++ [⟨"assistant", content⟩], true⟩

/-- The content the client would extract from a gateway outcome when it is
a success for the client: a non-raising post, a non-error status, valid
JSON, a nonempty `choices` whose first element has a `message` with a
`content`.  `none` in every error case. -/
def gatewaySuccessContent : PostOutcome → Option String
  | .postRaises => none
  | .response status body =>
    if 400 ≤ status ∧ status < 600 then none
    else
      match body with
      | .invalidJson => none
      | .json b =>
        match b.choices with
        | some (c :: _) =>
          match c.message with
          | some m => m.content
          | none => none
        | _ => none

/-! ## Concurrency model for the gate (`async with llm_lock`)

The event loop interleaves the logical request tasks of the completion
endpoint.  Each task validates, may fail early (400, 503), acquires the
asyncio lock only when it is free, holds it while the engine call is in
flight (the `Invoking` state), and releases it on exit of the
`async with` block, successful or not. -/

/-- Phase of one logical request task. -/
inductive Phase
  | received
  | validated
  | invoking
  | completed
  | failed
deriving DecidableEq, Repr

/-- Global scheduler state for `n` concurrent requests: the asyncio lock
and each request's phase. -/
structure SysState (n : Nat) where
  locked : Bool
  phases : Fin n → Phase

/-- Initial state: lock free, every request just received. -/
def initState (n : Nat) : SysState n :=
  ⟨false, fun _ => .received⟩

/-- One scheduler step.  `acquireGate` fires only when the lock is free
(the asyncio lock suspends the task otherwise), and `finishGenerate`
releases the lock on every exit of the `async with` block, success or
failure. -/
inductive SysStep {n : Nat} : SysState n → SysState n → Prop
  | validate (s : SysState n) (i : Fin n) (h : s.phases i = .received) :
      SysStep s ⟨s.locked, Function.update s.phases i .validated⟩
  | failEarly (s : SysState n) (i : Fin n)
      (h : s.phases i = .received ∨ s.phases i = .validated) :
      SysStep s ⟨s.locked, Function.update s.phases i .failed⟩
  | acquireGate (s : SysState n) (i : Fin n) (h : s.phases i = .validated)
      (hl : s.locked = false) :
      SysStep s ⟨true, Function.update s.phases i .invoking⟩
  | finishGenerate (s : SysState n) (i : Fin n) (ok : Bool)
      (h : s.phases i = .invoking) :
      SysStep s ⟨false, Function.update s.phases i (if ok then .completed else .failed)⟩

/-- States reachable from the initial state by scheduler steps. -/
def Reachable {n : Nat} (s : SysState n) : Prop :=
  Relation.ReflTransGen SysStep (initState n) s

/-- Number of requests currently in the `Invoking` state. -/
def invokingCount {n : Nat} (s : SysState n) : Nat :=
  (Finset.univ.filter fun i => s.phases i = Phase.invoking).card

/-- Gate invariant: invoking tasks are pairwise equal (at most one), and a
free lock means no task is invoking. -/
def gateInv {n : Nat} (s : SysState n) : Prop :=
  (∀ i j, s.phases i = .invoking → s.phases j = .invoking → i = j) ∧
  (s.locked = false → ∀ i, s.phases i ≠ .invoking)

/-! ## Concrete fixtures -/

/-- Environment with the default configured model path, the model file
absent, and a fixed clock. -/
def env0 : Env := ⟨"models/mistral-7b-instruct-v0.1.Q4_K_M.gguf", false, 1700000000⟩

/-- The spec's scenario request: one user message, `max_tokens` 10. -/
def reqHello : ChatCompletionRequest := ⟨[⟨"user", "hello"⟩], 0.7, 10, 1, none⟩

/-- A payload whose `messages` list is empty. -/
def reqEmpty : ChatCompletionRequest := ⟨[], 0.7, 512, 1, none⟩

/-- The spec scenario's engine double output:
`{"choices":[{"message":{"role":"assistant","content":"hi there"}}]}`. -/
def doubleHiThere : LlmCompletionDict :=
  ⟨some [⟨some ⟨some "assistant", some "hi there"⟩, none⟩], none, none⟩

/-! ## Invariant of the gate state machine -/

/-- The gate invariant holds initially. -/
theorem gateInv_init (n : Nat) : gateInv (initState n) := by
  constructor
  · intro i j hi _
    simp [initState] at hi
  · intro _ i
    simp [initState]

/-- The gate invariant is preserved by every scheduler step. -/
theorem gateInv_step {n : Nat} {s t : SysState n} (hs : gateInv s)
    (h : SysStep s t) : gateInv t := by
  obtain ⟨huniq, hfree⟩ := hs
  cases h with
  | validate i hp =>
    refine ⟨?_, ?_⟩
    · intro a b ha hb
      simp only [Function.update_apply] at ha hb
      split at ha
      · simp at ha
      · split at hb
        · simp at hb
        · exact huniq a b ha hb
    · intro hl a
      simp only [Function.update_apply]
      split
      · simp
      · exact hfree hl a
  | failEarly i hp =>
    refine ⟨?_, ?_⟩
    · intro a b ha hb
      simp only [Function.update_apply] at ha hb
      split at ha
      · simp at ha
      · split at hb
        · simp at hb
        · exact huniq a b ha hb
    · intro hl a
      simp only [Function.update_apply]
      split
      · simp
      · exact hfree hl a
  | acquireGate i hp hl =>
    refine ⟨?_, ?_⟩
    · intro a b ha hb
      simp only [Function.update_apply] at ha hb
      by_cases hai : a = i
      · by_cases hbi : b = i
        · rw [hai, hbi]
        · rw [if_neg hbi] at hb
          exact absurd hb (hfree hl b)
      · rw [if_neg hai] at ha
        exact absurd ha (hfree hl a)
    · intro hcontra
      simp at hcontra
  | finishGenerate i ok hp =>
    refine ⟨?_, ?_⟩
    · intro a b ha _
      exfalso
      simp only [Function.update_apply] at ha
      by_cases hai : a = i
      · rw [if_pos hai] at ha
        cases ok <;> simp at ha
      · rw [if_neg hai] at ha
        exact hai (huniq a i ha hp)
    · intro _ a
      simp only [Function.update_apply]
      by_cases hai : a = i
      · rw [if_pos hai]
        cases ok <;> simp
      · rw [if_neg hai]
        intro ha
        exact hai (huniq a i ha hp)

/-- The gate invariant holds in every reachable state. -/
theorem gateInv_reachable {n : Nat} {s : SysState n} (h : Reachable s) :
    gateInv s := by
  unfold Reachable at h
  induction h with
  | refl => exact gateInv_init n
  | tail _ hstep ih => exact gateInv_step ih hstep

/-- C1: for every number of concurrent completion requests, in every state
the scheduler can reach while the engine is present, at most one request is
in the `Invoking` state (holding the gate, executing the engine's generate
call): generation calls are strictly serialized by the gate. -/
theorem c1_generation_strictly_serialized {n : Nat} (s : SysState n)
    (h : Reachable s) : invokingCount s ≤ 1 := by
  obtain ⟨huniq, _⟩ := gateInv_reachable h
  unfold invokingCount
  refine Finset.card_le_one.2 ?_
  intro a ha b hb
  rw [Finset.mem_filter] at ha
  rw [Finset.mem_filter] at hb
  exact huniq a b ha.2 hb.2

/-- An intermediate concrete state: request 0 validated, lock free. -/
def demoState1 : SysState 2 :=
  ⟨false, Function.update (fun _ => Phase.received) 0 .validated⟩

/-- A concrete state with the gate held by request 0 while request 1 is
still pending. -/
def demoState2 : SysState 2 :=
  ⟨true, Function.update (Function.update (fun _ => Phase.received) 0 .validated) 0 .invoking⟩

/-- Witness for C1: the serialization bound, at a concrete reachable state
of two concurrent requests in which one holds the gate. -/
theorem c1_generation_strictly_serialized_witness : invokingCount demoState2 ≤ 1 :=
  c1_generation_strictly_serialized demoState2
    (Relation.ReflTransGen.tail
      (Relation.ReflTransGen.single (SysStep.validate (initState 2) 0 rfl))
      (SysStep.acquireGate demoState1 0 rfl rfl))

/-! ## Gate release on every handler path -/

/-- The handler body's gate trace: empty on the 400 fast path, and exactly
one acquire followed by one release on every path through the
`async with llm_lock` block. -/
theorem create_chat_completion_events (env : Env) (req : ChatCompletionRequest)
    (engine : EngineBehavior) :
    (create_chat_completion env req engine).2 =
      if req.messages = [] then [] else [GateEvent.acquire, GateEvent.release] := by
  by_cases hreq : req.messages = []
  · simp [create_chat_completion, hreq]
  · cases engine with
    | raises => simp [create_chat_completion, hreq]
    | returnsNonDict => simp [create_chat_completion, hreq]
    | returns d =>
      obtain ⟨choices, di, dc⟩ := d
      rcases choices with _ | ⟨_ | ⟨⟨msg, fr⟩, rest⟩⟩
      · simp [create_chat_completion, hreq]
      · simp [create_chat_completion, hreq]
      · cases msg <;> simp [create_chat_completion, hreq]

/-- Gate trace of the full pipeline: either the gate is never touched
(dependency 503 or validation 400 path) or it is acquired once and then
released once. -/
theorem handle_request_events (st : AppState) (env : Env)
    (req : ChatCompletionRequest) :
    (handle_request st env req).2 = [] ∨
    (handle_request st env req).2 = [GateEvent.acquire, GateEvent.release] := by
  obtain ⟨llm, lock⟩ := st
  cases llm with
  | none => left; rfl
  | some e =>
    cases lock with
    | none => left; rfl
    | some b =>
      have h := create_chat_completion_events env req e
      by_cases hreq : req.messages = []
      · left
        simpa [handle_request, get_llm_instance, get_llm_lock, hreq] using h
      · right
        simpa [handle_request, get_llm_instance, get_llm_lock, hreq] using h

/-- C2: on every request, every exit path out of the gate-held section —
success, late client error, or internal error — releases the gate exactly
once: the trace is either empty (the gate was never acquired) or exactly
one acquire followed by one release, and releases always balance
acquires, so no path leaves the gate held. -/
theorem c2_gate_released_exactly_once (st : AppState) (env : Env)
    (req : ChatCompletionRequest) :
    ((handle_request st env req).2 = [] ∨
      (handle_request st env req).2 = [GateEvent.acquire, GateEvent.release]) ∧
    (handle_request st env req).2.count GateEvent.release =
      (handle_request st env req).2.count GateEvent.acquire := by
  have h := handle_request_events st env req
  refine ⟨h, ?_⟩
  rcases h with h | h <;> rw [h] <;> rfl

/-! ## Error handling of the completion handler -/

/-- C3: code-bug evidence.  A non-dict engine result does raise the 500
`HTTPException`, but when the engine call raises any other unexpected
exception the final `except Exception` branch only logs and falls through:
the handler produces no response at all (it returns `None`), not the
internal-error response the claim requires. -/
theorem c3_unexpected_exception_swallowed :
    (handle_request ⟨some .raises, some false⟩ env0 reqHello).1 =
      HandlerOutcome.noResponse ∧
    (handle_request ⟨some .raises, some false⟩ env0 reqHello).1.statusCode ≠ some 500 ∧
    (handle_request ⟨some .returnsNonDict, some false⟩ env0 reqHello).1 =
      HandlerOutcome.httpError 500 "Invalid response structure from LLM." := by
  refine ⟨rfl, ?_, rfl⟩
  intro hcontra
  simp [handle_request, get_llm_instance, get_llm_lock, create_chat_completion,
    reqHello, HandlerOutcome.statusCode] at hcontra

/-- C4: for every well-formed request arriving while the engine handle is
absent or the gate does not exist, the pipeline answers 503 from the
dependency layer, immediately (no queuing or backoff — the handler body is
never entered) and without any gate activity. -/
theorem c4_unavailable_fast_path (st : AppState) (env : Env)
    (req : ChatCompletionRequest) (h : st.llm = none ∨ st.llm_lock = none) :
    (handle_request st env req).1.statusCode = some 503 ∧
    (handle_request st env req).2 = [] := by
  rcases hllm : st.llm with _ | e
  · constructor <;>
      simp [handle_request, get_llm_instance, hllm, HandlerOutcome.statusCode]
  · rcases hlock : st.llm_lock with _ | b
    · constructor <;>
        simp [handle_request, get_llm_instance, get_llm_lock, hllm, hlock,
          HandlerOutcome.statusCode]
    · rcases h with h | h
      · rw [hllm] at h
        simp at h
      · rw [hlock] at h
        simp at h

/-- Witness for C4 at a concrete absent-engine state. -/
theorem c4_unavailable_fast_path_witness :
    (handle_request ⟨none, none⟩ env0 reqHello).1.statusCode = some 503 ∧
    (handle_request ⟨none, none⟩ env0 reqHello).2 = [] :=
  c4_unavailable_fast_path ⟨none, none⟩ env0 reqHello (Or.inl rfl)

/-- C5 fails as stated: an empty-messages request arriving while the
engine is absent is answered 503 by the dependency layer, not 400 — the
dependency checks run before the handler's emptiness validation. -/
theorem c5_counterexample :
    (handle_request ⟨none, none⟩ env0 reqEmpty).1.statusCode = some 503 ∧
    (handle_request ⟨none, none⟩ env0 reqEmpty).1.statusCode ≠ some 400 := by
  constructor
  · rfl
  · intro hcontra
    simp [handle_request, get_llm_instance, HandlerOutcome.statusCode] at hcontra

/-- C5 amended: when the engine handle and the gate are present, every
request whose messages list is empty is answered with the 400 client
error, regardless of the other payload fields, and without touching the
gate. -/
theorem c5_amended_empty_messages_400 (st : AppState) (env : Env)
    (req : ChatCompletionRequest) (hmsg : req.messages = [])
    (hllm : st.llm.isSome = true) (hlock : st.llm_lock.isSome = true) :
    handle_request st env req =
      (.httpError 400 "Messages list cannot be empty.", []) := by
  obtain ⟨llm, lock⟩ := st
  cases llm with
  | none => simp at hllm
  | some e =>
    cases lock with
    | none => simp at hlock
    | some b =>
      simp [handle_request, get_llm_instance, get_llm_lock,
        create_chat_completion, hmsg]

/-- Witness for the amended C5 at a concrete loaded state and an
empty-messages payload. -/
theorem c5_amended_empty_messages_400_witness :
    handle_request ⟨some .raises, some false⟩ env0 reqEmpty =
      (.httpError 400 "Messages list cannot be empty.", []) :=
  c5_amended_empty_messages_400 ⟨some .raises, some false⟩ env0 reqEmpty rfl rfl rfl

/-! ## Success mapping of the completion handler -/

/-- C6: for every successful generation whose output has the expected
structure (a dict with a nonempty `choices` whose first element carries a
`message`), the response is built from the first choice with defaults
filled: role defaults to `"assistant"`, content to `""`, finish reason to
`"stop"`; `id` and `created` come from the engine dict or are synthesized
from the clock, and the model name resolves from the artifact path. -/
theorem c6_success_mapping_defaults (env : Env) (req : ChatCompletionRequest)
    (d : LlmCompletionDict) (c : LlmChoiceDict) (rest : List LlmChoiceDict)
    (m : LlmMessageDict) (hreq : req.messages ≠ [])
    (hc : d.choices = some (c :: rest)) (hm : c.message = some m) :
    (create_chat_completion env req (.returns d)).1 =
      HandlerOutcome.response
        { id := d.id.getD ("chatcmpl-" ++ toString env.now)
          created := d.created.getD env.now
          model := model_name_display env
          choices := [{ index := 0
                        message := { role := m.role.getD "assistant"
                                     content := m.content.getD "" }
                        finish_reason := c.finish_reason.getD "stop" }] } := by
  simp [create_chat_completion, hreq, hc, hm, buildResponse]

/-- Witness for C6: the spec's scenario — the engine double returns
`choices[0].message = {role: assistant, content: "hi there"}` with no
finish reason; the response carries content `"hi there"` and the
default-filled finish reason `"stop"`. -/
theorem c6_success_mapping_defaults_witness :
    (create_chat_completion env0 reqHello (.returns doubleHiThere)).1 =
      HandlerOutcome.response
        { id := "chatcmpl-" ++ toString env0.now
          created := env0.now
          model := model_name_display env0
          choices := [{ index := 0
                        message := { role := "assistant", content := "hi there" }
                        finish_reason := "stop" }] } :=
  c6_success_mapping_defaults env0 reqHello doubleHiThere
    ⟨some ⟨some "assistant", some "hi there"⟩, none⟩ []
    ⟨some "assistant", some "hi there"⟩ (by decide) rfl rfl

/-! ## Health endpoint -/

/-- C7: when the engine handle is present the health query reports status
`"ok"` with `model_loaded` true and the resolved model name; when it is
absent it reports `"warning"` with `model_loaded` false, a diagnostic
message, and the configured artifact path.  The result never depends on
the gate (the lock field is not read), and the query is a total function —
it never throws for degraded states. -/
theorem c7_health_report (st : AppState) (env : Env) :
    (st.llm.isSome = true →
      (health_check_status st env).status = "ok" ∧
      (health_check_status st env).model_loaded = true ∧
      (env.modelPath ≠ "" → env.modelPathExists = true →
        (health_check_status st env).model_name = some (basename env.modelPath))) ∧
    (st.llm = none →
      (health_check_status st env).status = "warning" ∧
      (health_check_status st env).model_loaded = false ∧
      (health_check_status st env).message =
        some "LLM not loaded or failed to load. Check server logs." ∧
      (health_check_status st env).configured_model_path = some env.modelPath) ∧
    (∀ l, health_check_status { st with llm_lock := l } env =
      health_check_status st env) := by
  refine ⟨?_, ?_, ?_⟩
  · intro h
    refine ⟨?_, ?_, ?_⟩
    · simp [health_check_status, h]
    · simp [health_check_status, h]
    · intro hp he
      simp [health_check_status, h, health_model_name_display, hp, he]
  · intro h
    refine ⟨?_, ?_, ?_, ?_⟩ <;> simp [health_check_status, h]
  · intro l
    rfl

/-- Witness for C7 at a concrete loaded state and a concrete absent
state. -/
theorem c7_health_report_witness :
    (health_check_status ⟨some .raises, some false⟩ env0).status = "ok" ∧
    (health_check_status ⟨some .raises, some false⟩ env0).model_loaded = true ∧
    (health_check_status ⟨none, none⟩ env0).status = "warning" ∧
    (health_check_status ⟨none, none⟩ env0).model_loaded = false ∧
    (health_check_status ⟨none, none⟩ env0).configured_model_path =
      some env0.modelPath := by
  refine ⟨?_, ?_, ?_, ?_, ?_⟩
  · exact ((c7_health_report ⟨some .raises, some false⟩ env0).1 rfl).1
  · exact ((c7_health_report ⟨some .raises, some false⟩ env0).1 rfl).2.1
  · exact ((c7_health_report ⟨none, none⟩ env0).2.1 rfl).1
  · exact ((c7_health_report ⟨none, none⟩ env0).2.1 rfl).2.1
  · exact ((c7_health_report ⟨none, none⟩ env0).2.1 rfl).2.2.2

/-! ## Lifecycle -/

/-- C8 fails as stated: after a successful load followed by shutdown, the
engine handle is gone but the gate (`app.state.llm_lock`) still exists —
`stop()` never discards it, so the gate does not exist exactly when the
handle is present throughout the lifecycle. -/
theorem c8_counterexample :
    (lifespan_shutdown (lifespan_startup true (some .raises))).llm = none ∧
    (lifespan_shutdown (lifespan_startup true (some .raises))).llm_lock =
      some false :=
  ⟨rfl, rfl⟩

/-- C8 amended: `start()` with a missing artifact or a failed load leaves
both the handle and the gate absent without crashing; a successful load
stores the handle and creates the gate unlocked; `stop()` clears the
handle idempotently but leaves the gate reference untouched, so after
shutdown the gate may survive the handle. -/
theorem c8_amended_lifecycle (loadResult : Option EngineBehavior)
    (e : EngineBehavior) (st : AppState) :
    lifespan_startup false loadResult = ⟨none, none⟩ ∧
    lifespan_startup true none = ⟨none, none⟩ ∧
    lifespan_startup true (some e) = ⟨some e, some false⟩ ∧
    (lifespan_shutdown st).llm = none ∧
    (lifespan_shutdown st).llm_lock = st.llm_lock ∧
    lifespan_shutdown (lifespan_shutdown st) = lifespan_shutdown st := by
  obtain ⟨llm, lock⟩ := st
  refine ⟨rfl, rfl, rfl, ?_, ?_, ?_⟩ <;> cases llm <;> simp [lifespan_shutdown]

/-! ## CLI client history bookkeeping -/

/-- C9: for every `get_llm_response` call made with a pending user turn,
any error from the gateway — a raised post, an HTTP error status, a
malformed body, or a missing field — removes the just-added unanswered
user turn, restoring the history to its pre-turn state; on success exactly
one assistant message is appended. -/
theorem c9_client_history_rollback (hist : List ChatMessage)
    (outcome : PostOutcome) (h : lastRole hist = some "user") :
    (∀ c, gatewaySuccessContent outcome = some c →
      get_llm_response hist outcome = ⟨c, hist ++ [⟨"assistant", c⟩], true⟩) ∧
    (gatewaySuccessContent outcome = none →
      (get_llm_response hist outcome).history = hist.dropLast ∧
      (get_llm_response hist outcome).requestSent = true) := by
  have hne : hist ≠ [] := by
    intro he
    rw [he] at h
    simp [lastRole] at h
  have hrev : revert_last_user_message hist = hist.dropLast := by
    simp [revert_last_user_message, hne, h]
  have hguard : ¬(hist.isEmpty = true ∨ lastRole hist ≠ some "user") := by
    push_neg
    refine ⟨?_, h⟩
    simpa using hne
  cases outcome with
  | postRaises =>
    refine ⟨?_, ?_⟩
    · intro c hc
      simp [gatewaySuccessContent] at hc
    · intro _
      unfold get_llm_response
      rw [if_neg hguard]
      simp [hrev]
  | response status body =>
    by_cases hstat : 400 ≤ status ∧ status < 600
    · refine ⟨?_, ?_⟩
      · intro c hc
        simp [gatewaySuccessContent, hstat] at hc
      · intro _
        unfold get_llm_response
        rw [if_neg hguard]
        simp [hstat, hrev]
    · cases body with
      | invalidJson =>
        refine ⟨?_, ?_⟩
        · intro c hc
          simp [gatewaySuccessContent, hstat] at hc
        · intro _
          unfold get_llm_response
          rw [if_neg hguard]
          simp [hstat, hrev]
      | json b =>
        rcases hch : b.choices with _ | ⟨_ | ⟨c0, rest⟩⟩
        · refine ⟨?_, ?_⟩
          · intro c hc
            simp [gatewaySuccessContent, hstat, hch] at hc
          · intro _
            unfold get_llm_response
            rw [if_neg hguard]
            simp [hstat, hch, hrev]
        · refine ⟨?_, ?_⟩
          · intro c hc
            simp [gatewaySuccessContent, hstat, hch] at hc
          · intro _
            unfold get_llm_response
            rw [if_neg hguard]
            simp [hstat, hch, hrev]
        · rcases hmsg : c0.message with _ | m
          · refine ⟨?_, ?_⟩
            · intro c hc
              simp [gatewaySuccessContent, hstat, hch, hmsg] at hc
            · intro _
              unfold get_llm_response
              rw [if_neg hguard]
              simp [hstat, hch, hmsg, hrev]
          · rcases hct : m.content with _ | content
            · refine ⟨?_, ?_⟩
              · intro c hc
                simp [gatewaySuccessContent, hstat, hch, hmsg, hct] at hc
              · intro _
                unfold get_llm_response
                rw [if_neg hguard]
                simp [hstat, hch, hmsg, hct, hrev]
            · refine ⟨?_, ?_⟩
              · intro c hc
                have hcc : content = c := by
                  simpa [gatewaySuccessContent, hstat, hch, hmsg, hct] using hc
                subst hcc
                unfold get_llm_response
                rw [if_neg hguard]
                simp [hstat, hch, hmsg, hct]
              · intro hc
                simp [gatewaySuccessContent, hstat, hch, hmsg, hct] at hc

/-- Witness for C9: a single pending user turn and a 500 gateway answer —
the turn is rolled back, leaving the history empty. -/
theorem c9_client_history_rollback_witness :
    (get_llm_response [⟨"user", "hi"⟩] (.response 500 (.json ⟨none⟩))).history = [] ∧
    (get_llm_response [⟨"user", "hi"⟩] (.response 500 (.json ⟨none⟩))).requestSent =
      true := by
  have h := (c9_client_history_rollback [⟨"user", "hi"⟩]
    (.response 500 (.json ⟨none⟩)) (by decide)).2 (by decide)
  simpa using h

/-- C10: a `get_llm_response` call made when the history is empty or does
not end with a user message returns the internal-client-error string
without sending any request, leaving the history unchanged. -/
theorem c10_client_guard_no_request (hist : List ChatMessage)
    (outcome : PostOutcome) (h : hist = [] ∨ lastRole hist ≠ some "user") :
    get_llm_response hist outcome =
      ⟨"Error: Internal client error - no user message to respond to.", hist, false⟩ := by
  have hguard : hist.isEmpty = true ∨ lastRole hist ≠ some "user" := by
    rcases h with h | h
    · left
      simp [h]
    · right
      exact h
  unfold get_llm_response
  rw [if_pos hguard]

/-- Witness for C10 at the empty history. -/
theorem c10_client_guard_no_request_witness :
    get_llm_response [] .postRaises =
      ⟨"Error: Internal client error - no user message to respond to.", [], false⟩ :=
  c10_client_guard_no_request [] .postRaises (Or.inl rfl)

end LlmService
